import Mathlib

/-!
Shallow embedding of the Astrology App API (src/main.py together with the
declared collection schemas in src/schemas.py): a request/response service
layered over a MongoDB document store.  Collections are modelled as lists of
documents in insertion order (`find_one` is the first match, `insert_one`
appends), `_id` values are drawn from a counter in the state, and parsing a
client-supplied ObjectId string is modelled by `RawId := Option Nat`, where
`none` stands for a malformed string.  Every endpoint returns its HTTP
result together with the post state of the store; an `HTTPException` is an
`Err` value.  Environment inputs of an endpoint (the wall clock read by
`now_utc`, the random token drawn by `secrets.token_urlsafe`) are explicit
parameters.
-/

/-- Result of parsing a client-supplied id string: `some n` is a well-formed
ObjectId denoting `n`, `none` is a malformed string (`str(ObjectId)` always
yields a well-formed string, i.e. `some` of the id). -/
abbrev RawId := Option Nat

/-- An `HTTPException` with a status code and a detail message. -/
structure Err where
  status : Nat
  detail : String
deriving DecidableEq

/-- Utility `oid` (main.py lines 28-32): parse an id string, 400 on a
malformed one. -/
def oid : RawId → Except Err Nat
  | some n => .ok n
  | none => .error ⟨400, "Invalid id format"⟩

/-- Model of `hash_password` (main.py lines 91-92), the sha256 hexdigest of
the password; the claims only compare hash values for equality, so the hash
is modelled as a tagging function. -/
def hash_password (p : String) : String := "sha256:" ++ p

/-- A document of the `user` collection (register's `user_doc`). -/
structure UserDoc where
  _id : Nat
  name : String
  email : String
  password_hash : String
  role : String
  rate_per_min : Option Rat
  bio : Option String
  created_at : Nat
  updated_at : Nat
deriving DecidableEq

/-- A document of the `chat` collection (create_chat's `chat_doc`). -/
structure ChatDoc where
  _id : Nat
  user_id : Option Nat
  astrologer_id : Nat
  status : String
  min_fee : Rat
  created_at : Nat
  updated_at : Nat
deriving DecidableEq

/-- A document of the `message` collection (send_message's `msg_doc`). -/
structure MessageDoc where
  _id : Nat
  chat_id : Nat
  sender_id : Nat
  content : String
  msg_type : String
  created_at : Nat
deriving DecidableEq

/-- A document of the `session` collection (create_session's `session_doc`);
`user_id` is stored in string form (`str(res.inserted_id)`), hence `RawId`. -/
structure SessionDoc where
  _id : Nat
  user_id : RawId
  token : Nat
  created_at : Nat
  expires_at : Nat
deriving DecidableEq

/-- A document of the `call` collection (init_call's `doc`). -/
structure CallDoc where
  _id : Nat
  caller_id : Option Nat
  callee_id : Nat
  call_type : String
  status : String
  chat_id : Option Nat
  created_at : Nat
  updated_at : Option Nat
deriving DecidableEq

/-- The document store: the five collections plus the id generator. -/
structure St where
  users : List UserDoc
  chats : List ChatDoc
  messages : List MessageDoc
  sessions : List SessionDoc
  calls : List CallDoc
  nextId : Nat
deriving DecidableEq

/-- The empty store. -/
def St.init : St := ⟨[], [], [], [], [], 0⟩

/-- Request body of `POST /auth/register`. -/
structure RegisterRequest where
  name : String
  email : String
  password : String
  role : String
  rate_per_min : Option Rat
  bio : Option String
deriving DecidableEq

/-- Request body of `POST /auth/login`. -/
structure LoginRequest where
  email : String
  password : String
deriving DecidableEq

/-- Response of the auth endpoints (`SessionResponse` in main.py). -/
structure SessionResponse where
  token : Nat
  user_id : RawId
  name : String
  role : String
deriving DecidableEq

/-- Request body of `POST /chat/create`. -/
structure CreateChatRequest where
  astrologer_id : RawId
  min_fee : Rat
deriving DecidableEq

/-- Request body of `POST /chat/send`. -/
structure SendMessageRequest where
  chat_id : RawId
  sender_id : RawId
  content : String
deriving DecidableEq

/-- Request body of `POST /call/init`; `chat_id` is an optional id string. -/
structure CallInitRequest where
  callee_id : RawId
  call_type : String
  chat_id : Option RawId
deriving DecidableEq

/-- Success body `{"chat_id": str(...)}` of `POST /chat/create`. -/
structure ChatCreated where
  chat_id : RawId
deriving DecidableEq

/-- Success body `{"status": "sent"}` of `POST /chat/send`. -/
structure SendAck where
  status : String
deriving DecidableEq

/-- Success body `{"call_id": str(...)}` of `POST /call/init`. -/
structure CallCreated where
  call_id : RawId
deriving DecidableEq

/-- Success body `{"status": status}` of `POST /call/{call_id}/status`. -/
structure StatusAck where
  status : String
deriving DecidableEq

/-- One element of the response of `GET /chat/{chat_id}/messages`
(main.py lines 235-242): ids rendered as strings, `created_at` rendered when
present. -/
structure MsgView where
  id : RawId
  sender_id : RawId
  content : String
  created_at : Option Nat
deriving DecidableEq

/-- Auth helper `create_session` (main.py lines 95-104): persist a session
document carrying the token and a 7-day expiry (`now + 604800` seconds).
The random token is an environment input, passed as a parameter. -/
def create_session (s : St) (now token : Nat) (user_id : RawId) : St :=
  { s with
      sessions := s.sessions ++ [⟨s.nextId, user_id, token, now, now + 604800⟩],
      nextId := s.nextId + 1 }

/-- Auth helper `get_user_by_token` (main.py lines 107-111): session by
token, then user by the embedded id (stored in string form, parsed by
`oid`). -/
def get_user_by_token (s : St) (token : Nat) : Except Err (Option UserDoc) :=
  match s.sessions.find? (fun d => d.token == token) with
  | none => .ok none
  | some sess =>
      (oid sess.user_id).map (fun uid => s.users.find? (fun u => u._id == uid))

/-- Endpoint `register` (main.py lines 136-152): 400 on a duplicate email,
otherwise insert the user document, issue a session and answer with the
token and the public user fields. -/
def register (s : St) (now token : Nat) (p : RegisterRequest) :
    Except Err SessionResponse × St :=
  match s.users.find? (fun u => u.email == p.email) with
  | some _ => (.error ⟨400, "Email already registered"⟩, s)
  | none =>
      let uid := s.nextId
      let user : UserDoc :=
        ⟨uid, p.name, p.email, hash_password p.password, p.role,
          p.rate_per_min, p.bio, now, now⟩
      let s1 : St := { s with users := s.users ++ [user], nextId := s.nextId + 1 }
      (.ok ⟨token, some uid, p.name, p.role⟩, create_session s1 now token (some uid))

/-- Endpoint `login` (main.py lines 155-161): 401 when the email is unknown
or the stored hash differs from the hash of the supplied password. -/
def login (s : St) (now token : Nat) (p : LoginRequest) :
    Except Err SessionResponse × St :=
  match s.users.find? (fun u => u.email == p.email) with
  | none => (.error ⟨401, "Invalid credentials"⟩, s)
  | some user =>
      if user.password_hash ≠ hash_password p.password then
        (.error ⟨401, "Invalid credentials"⟩, s)
      else
        (.ok ⟨token, some user._id, user.name, user.role⟩,
          create_session s now token (some user._id))

/-- Endpoint `create_chat` (main.py lines 190-206): 404 unless a user with
the given id and role `astrologer` exists; on success insert a chat with
`user_id` unset and status `active`. -/
def create_chat (s : St) (now : Nat) (p : CreateChatRequest) :
    Except Err ChatCreated × St :=
  match oid p.astrologer_id with
  | .error e => (.error e, s)
  | .ok aid =>
      match s.users.find? (fun u => u._id == aid && u.role == "astrologer") with
      | none => (.error ⟨404, "Astrologer not found"⟩, s)
      | some _ =>
          let chat : ChatDoc := ⟨s.nextId, none, aid, "active", p.min_fee, now, now⟩
          (.ok ⟨some s.nextId⟩,
            { s with chats := s.chats ++ [chat], nextId := s.nextId + 1 })

/-- The `update_one` on the chat collection in `send_message` (main.py line
217): set `user_id` and `updated_at` on the first chat matching the id. -/
def set_chat_user : List ChatDoc → Nat → Nat → Nat → List ChatDoc
  | [], _, _, _ => []
  | c :: cs, cid, sid, now =>
      if c._id = cid then { c with user_id := some sid, updated_at := now } :: cs
      else c :: set_chat_user cs cid sid now

/-- Endpoint `send_message` (main.py lines 209-227).  When the chat's
`user_id` is unset the source evaluates `oid(payload.sender_id)` as an
argument of `update_one`, so a malformed sender id aborts before the update;
otherwise `oid(payload.sender_id)` is first evaluated when the message
document is built. -/
def send_message (s : St) (now : Nat) (p : SendMessageRequest) :
    Except Err SendAck × St :=
  match oid p.chat_id with
  | .error e => (.error e, s)
  | .ok cid =>
      match s.chats.find? (fun c => c._id == cid) with
      | none => (.error ⟨404, "Chat not found"⟩, s)
      | some chat =>
          let upd : Except Err St :=
            if chat.user_id = none then
              (oid p.sender_id).map (fun sid =>
                { s with chats := set_chat_user s.chats chat._id sid now })
            else .ok s
          match upd with
          | .error e => (.error e, s)
          | .ok s1 =>
              match oid p.sender_id with
              | .error e => (.error e, s1)
              | .ok sid =>
                  let msg : MessageDoc := ⟨s1.nextId, chat._id, sid, p.content, "text", now⟩
                  (.ok ⟨"sent"⟩,
                    { s1 with messages := s1.messages ++ [msg], nextId := s1.nextId + 1 })

/-- Rendering of one message row in `get_messages` (main.py lines 235-242). -/
def msg_view (r : MessageDoc) : MsgView :=
  ⟨some r._id, some r.sender_id, r.content, some r.created_at⟩

/-- Endpoint `get_messages` (main.py lines 230-243): the messages of the
chat sorted by `created_at` ascending, rendered as message views.  There is
no existence check of the chat id beyond `oid` parsing. -/
def get_messages (s : St) (chat_id : RawId) : Except Err (List MsgView) × St :=
  match oid chat_id with
  | .error e => (.error e, s)
  | .ok cid =>
      let rows := (s.messages.filter (fun r => r.chat_id == cid)).mergeSort
        (fun a b => a.created_at ≤ b.created_at)
      (.ok (rows.map msg_view), s)

/-- Endpoint `init_call` (main.py lines 256-267): insert a call record with
status `initiated` and `caller_id` never populated. -/
def init_call (s : St) (now : Nat) (p : CallInitRequest) :
    Except Err CallCreated × St :=
  match oid p.callee_id with
  | .error e => (.error e, s)
  | .ok callee =>
      let chatid : Except Err (Option Nat) :=
        match p.chat_id with
        | some raw => (oid raw).map some
        | none => .ok none
      match chatid with
      | .error e => (.error e, s)
      | .ok cv =>
          let call : CallDoc := ⟨s.nextId, none, callee, p.call_type, "initiated", cv, now, none⟩
          (.ok ⟨some s.nextId⟩,
            { s with calls := s.calls ++ [call], nextId := s.nextId + 1 })

/-- The `update_one` in `update_call_status` (main.py line 272): set
`status` and `updated_at` on the first call record matching the id; a miss
updates nothing. -/
def set_call_status : List CallDoc → Nat → String → Nat → List CallDoc
  | [], _, _, _ => []
  | c :: cs, cid, st, now =>
      if c._id = cid then { c with status := st, updated_at := some now } :: cs
      else c :: set_call_status cs cid st now

/-- Endpoint `update_call_status` (main.py lines 270-273): unconditionally
overwrite the status of the matching call record, echoing the supplied
string; no existence check and no validation of the status value. -/
def update_call_status (s : St) (now : Nat) (call_id : RawId) (status : String) :
    Except Err StatusAck × St :=
  match oid call_id with
  | .error e => (.error e, s)
  | .ok cid =>
      (.ok ⟨status⟩, { s with calls := set_call_status s.calls cid status now })

/-- A single API call together with its environment inputs (current wall
clock, fresh random token). -/
inductive Op
  | register (now token : Nat) (p : RegisterRequest)
  | login (now token : Nat) (p : LoginRequest)
  | create_chat (now : Nat) (p : CreateChatRequest)
  | send_message (now : Nat) (p : SendMessageRequest)
  | get_messages (chat_id : RawId)
  | init_call (now : Nat) (p : CallInitRequest)
  | update_call_status (now : Nat) (call_id : RawId) (status : String)

/-- Successful outcome of an API call. -/
inductive Out
  | session (r : SessionResponse)
  | chat (r : ChatCreated)
  | sent (r : SendAck)
  | msgs (r : List MsgView)
  | call (r : CallCreated)
  | ack (r : StatusAck)

/-- Run one API call against a store state. -/
def runOp : Op → St → Except Err Out × St
  | .register now token p, s =>
      ((register s now token p).1.map Out.session, (register s now token p).2)
  | .login now token p, s =>
      ((login s now token p).1.map Out.session, (login s now token p).2)
  | .create_chat now p, s =>
      ((create_chat s now p).1.map Out.chat, (create_chat s now p).2)
  | .send_message now p, s =>
      ((send_message s now p).1.map Out.sent, (send_message s now p).2)
  | .get_messages chat_id, s =>
      ((get_messages s chat_id).1.map Out.msgs, (get_messages s chat_id).2)
  | .init_call now p, s =>
      ((init_call s now p).1.map Out.call, (init_call s now p).2)
  | .update_call_status now call_id status, s =>
      ((update_call_status s now call_id status).1.map Out.ack,
        (update_call_status s now call_id status).2)

/-- One API call takes the store from `s` to `s'`. -/
def StepTo (s s' : St) : Prop := ∃ op : Op, (runOp op s).2 = s'

/-- Store states reachable from the empty store through API calls. -/
def Reachable (s : St) : Prop := Relation.ReflTransGen StepTo St.init s

/-! Helper lemmas about the two `update_one` models. -/

/-- When no call record carries the id, `update_one` is a no-op. -/
theorem set_call_status_of_not_mem (l : List CallDoc) (cid : Nat) (st : String)
    (now : Nat) (h : ∀ c ∈ l, c._id ≠ cid) : set_call_status l cid st now = l := by
  induction l with
  | nil => rfl
  | cons a as ih =>
      have ha : a._id ≠ cid := h a (by simp)
      simp [set_call_status, ha]
      exact ih (fun c hc => h c (by simp [hc]))

/-- After `update_one` on the call collection, the first record matching the
id is the old first match with `status` and `updated_at` overwritten. -/
theorem find?_set_call_status (l : List CallDoc) (cid : Nat) (st : String)
    (now : Nat) (c : CallDoc) (h : l.find? (fun x => x._id == cid) = some c) :
    (set_call_status l cid st now).find? (fun x => x._id == cid) =
      some { c with status := st, updated_at := some now } := by
  induction l with
  | nil => simp at h
  | cons a as ih =>
      by_cases ha : a._id = cid
      · rw [List.find?_cons_of_pos _ (by simp [ha])] at h
        cases h
        simp only [set_call_status, if_pos ha]
        rw [List.find?_cons_of_pos _ (by simp [ha])]
      · rw [List.find?_cons_of_neg _ (by simp [ha])] at h
        simp only [set_call_status, if_neg ha]
        rw [List.find?_cons_of_neg _ (by simp [ha])]
        exact ih h

/-- When no chat carries the id, `update_one` on the chat collection is a
no-op. -/
theorem set_chat_user_of_not_mem (l : List ChatDoc) (cid sid now : Nat)
    (h : ∀ c ∈ l, c._id ≠ cid) : set_chat_user l cid sid now = l := by
  induction l with
  | nil => rfl
  | cons a as ih =>
      have ha : a._id ≠ cid := h a (by simp)
      simp [set_chat_user, ha]
      exact ih (fun c hc => h c (by simp [hc]))

/-- After `update_one` on the chat collection, the first chat matching the
id is the old first match with `user_id` and `updated_at` overwritten. -/
theorem find?_set_chat_user (l : List ChatDoc) (cid sid now : Nat)
    (c : ChatDoc) (h : l.find? (fun x => x._id == cid) = some c) :
    (set_chat_user l cid sid now).find? (fun x => x._id == cid) =
      some { c with user_id := some sid, updated_at := now } := by
  induction l with
  | nil => simp at h
  | cons a as ih =>
      by_cases ha : a._id = cid
      · rw [List.find?_cons_of_pos _ (by simp [ha])] at h
        cases h
        simp only [set_chat_user, if_pos ha]
        rw [List.find?_cons_of_pos _ (by simp [ha])]
      · rw [List.find?_cons_of_neg _ (by simp [ha])] at h
        simp only [set_chat_user, if_neg ha]
        rw [List.find?_cons_of_neg _ (by simp [ha])]
        exact ih h

/-- The chat `update_one` never changes the stored `_id` values. -/
theorem set_chat_user_map_id (l : List ChatDoc) (cid sid now : Nat) :
    (set_chat_user l cid sid now).map (fun c => c._id) = l.map (fun c => c._id) := by
  induction l with
  | nil => rfl
  | cons a as ih =>
      by_cases ha : a._id = cid
      · simp [set_chat_user, ha]
      · simp [set_chat_user, ha, ih]

/-- A fixed store holding one call record, used to instantiate theorems. -/
def exCallSt : St := ⟨[], [], [], [], [⟨0, none, 4, "audio", "initiated", none, 0, none⟩], 1⟩

/-- C9: for every existing call record and every string supplied as status,
`update_call_status` succeeds and overwrites the record's status with that
string verbatim, with no validation against {initiated, connected, ended}. -/
theorem update_call_status_overwrites_verbatim
    (s : St) (now cid : Nat) (status : String) (c : CallDoc)
    (hfind : s.calls.find? (fun x => x._id == cid) = some c) :
    update_call_status s now (some cid) status =
      (.ok ⟨status⟩, { s with calls := set_call_status s.calls cid status now }) ∧
    (update_call_status s now (some cid) status).2.calls.find? (fun x => x._id == cid) =
      some { c with status := status, updated_at := some now } := by
  refine ⟨rfl, ?_⟩
  simpa [update_call_status, oid] using find?_set_call_status s.calls cid status now c hfind

/-- Witness for C9: an arbitrary status string outside the declared enum is
stored verbatim on the record. -/
theorem update_call_status_overwrites_verbatim_witness :
    update_call_status exCallSt 7 (some 0) "bogus" =
      (.ok ⟨"bogus"⟩, { exCallSt with calls := set_call_status exCallSt.calls 0 "bogus" 7 }) ∧
    (update_call_status exCallSt 7 (some 0) "bogus").2.calls.find? (fun x => x._id == 0) =
      some ⟨0, none, 4, "audio", "bogus", none, 0, some 7⟩ :=
  update_call_status_overwrites_verbatim exCallSt 7 0 "bogus" _ rfl

/-- C10: for a well-formed call id matching no record,
`update_call_status` still answers the success acknowledgement and changes
no record. -/
theorem update_call_status_missing_id_noop
    (s : St) (now cid : Nat) (status : String)
    (h : ∀ c ∈ s.calls, c._id ≠ cid) :
    update_call_status s now (some cid) status = (.ok ⟨status⟩, s) := by
  simp [update_call_status, oid, set_call_status_of_not_mem s.calls cid status now h]

/-- Witness for C10: updating a call id absent from the empty store still
acknowledges and leaves the store untouched. -/
theorem update_call_status_missing_id_noop_witness :
    update_call_status St.init 3 (some 5) "ended" = (.ok ⟨"ended"⟩, St.init) :=
  update_call_status_missing_id_noop St.init 3 5 "ended" (by intro c hc; simp [St.init] at hc)

/-- C7: `listMessages` returns the chat's messages sorted in nondecreasing
`created_at` order, for every store state (in particular after any sequence
of `sendMessage` calls). -/
theorem get_messages_sorted (s : St) (chat_id : RawId) (l : List MsgView)
    (h : (get_messages s chat_id).1 = .ok l) :
    l.Pairwise (fun a b => ∀ x ∈ a.created_at, ∀ y ∈ b.created_at, x ≤ y) := by
  cases hc : oid chat_id with
  | error e => simp [get_messages, hc] at h
  | ok cid =>
      simp only [get_messages, hc] at h
      rw [Except.ok.injEq] at h
      subst h
      have hs := @List.sorted_mergeSort MessageDoc
        (fun a b => decide (a.created_at ≤ b.created_at))
        (fun a b c hab hbc => by
          simp only [decide_eq_true_eq] at *
          exact Nat.le_trans hab hbc)
        (fun a b => by simpa using Nat.le_total a.created_at b.created_at)
        (s.messages.filter (fun r => r.chat_id == cid))
      refine hs.map msg_view ?_
      intro a b hab x hx y hy
      simp only [msg_view, Option.mem_def, Option.some.injEq] at hx hy
      subst hx
      subst hy
      exact of_decide_eq_true hab

/-- A fixed store holding one chat and two messages inserted out of
`created_at` order, used to instantiate theorems. -/
def exMsgSt : St :=
  ⟨[], [⟨5, none, 2, "active", 0, 0, 0⟩],
    [⟨6, 5, 1, "later", "text", 10⟩, ⟨7, 5, 2, "earlier", "text", 3⟩], [], [], 8⟩

/-- Witness for C7: two messages stored out of order come back sorted by
`created_at`. -/
theorem get_messages_sorted_witness :
    (get_messages exMsgSt (some 5)).1 =
      .ok [⟨some 7, some 2, "earlier", some 3⟩, ⟨some 6, some 1, "later", some 10⟩] ∧
    List.Pairwise (fun a b : MsgView => ∀ x ∈ a.created_at, ∀ y ∈ b.created_at, x ≤ y)
      [⟨some 7, some 2, "earlier", some 3⟩, ⟨some 6, some 1, "later", some 10⟩] := by
  have h : (get_messages exMsgSt (some 5)).1 =
      .ok [⟨some 7, some 2, "earlier", some 3⟩, ⟨some 6, some 1, "later", some 10⟩] := by
    simp [get_messages, oid, exMsgSt, List.mergeSort, msg_view]
  exact ⟨h, get_messages_sorted exMsgSt (some 5) _ h⟩

/-- The `user_id` of the first chat with the given id, when such a chat is
stored. -/
def chat_user (s : St) (cid : Nat) : Option (Option Nat) :=
  (s.chats.find? (fun c => c._id == cid)).map (fun c => c.user_id)

/-- C1: a `sendMessage` call on a chat whose `user_id` is unset backfills it
with the call's sender id, and on a chat whose `user_id` is already set it
leaves the value unchanged whatever the sender; hence the first message on a
freshly created chat fixes `user_id` once and for all. -/
theorem send_message_user_id_write_once
    (s : St) (now : Nat) (p : SendMessageRequest) (cid sid : Nat) (c : ChatDoc)
    (hcid : oid p.chat_id = .ok cid) (hsid : oid p.sender_id = .ok sid)
    (hfind : s.chats.find? (fun x => x._id == cid) = some c) :
    chat_user (send_message s now p).2 cid = some (some (c.user_id.getD sid)) := by
  have hcc : c._id = cid := by simpa using List.find?_some hfind
  cases hu : c.user_id with
  | none =>
      have hset := find?_set_chat_user s.chats cid sid now c hfind
      simp [send_message, hcid, hfind, hu, hsid, chat_user, hcc, hset, Except.map]
  | some u =>
      simp [send_message, hcid, hfind, hu, hsid, chat_user]

/-- A fixed store holding one freshly created chat (`user_id` unset), used
to instantiate theorems. -/
def exChatSt : St := ⟨[], [⟨3, none, 9, "active", 0, 0, 0⟩], [], [], [], 4⟩

/-- Witness for C1: the first message (sender 11) sets `user_id` to 11; a
second message from a different sender (12) leaves it at 11. -/
theorem send_message_user_id_write_once_witness :
    chat_user (send_message exChatSt 1 ⟨some 3, some 11, "hi"⟩).2 3 = some (some 11) ∧
    chat_user
      (send_message (send_message exChatSt 1 ⟨some 3, some 11, "hi"⟩).2 2
        ⟨some 3, some 12, "yo"⟩).2 3 = some (some 11) :=
  ⟨send_message_user_id_write_once exChatSt 1 ⟨some 3, some 11, "hi"⟩ 3 11 _ rfl rfl rfl,
    send_message_user_id_write_once _ 2 ⟨some 3, some 12, "yo"⟩ 3 12
      ⟨3, some 11, 9, "active", 0, 0, 1⟩ rfl rfl rfl⟩

/-- C3: `register` fails with the 400 conflict error exactly when a user
with the email is already stored; otherwise it inserts the user document,
issues a session, and answers with token, user id, name and role. -/
theorem register_conflict_iff (s : St) (now token : Nat) (p : RegisterRequest) :
    ((register s now token p).1 = .error ⟨400, "Email already registered"⟩ ↔
      ∃ u ∈ s.users, u.email = p.email) ∧
    ((∀ u ∈ s.users, u.email ≠ p.email) →
      register s now token p =
        (.ok ⟨token, some s.nextId, p.name, p.role⟩,
          ⟨s.users ++ [⟨s.nextId, p.name, p.email, hash_password p.password, p.role,
              p.rate_per_min, p.bio, now, now⟩],
            s.chats, s.messages,
            s.sessions ++ [⟨s.nextId + 1, some s.nextId, token, now, now + 604800⟩],
            s.calls, s.nextId + 2⟩)) := by
  cases hf : s.users.find? (fun u => u.email == p.email) with
  | none =>
      constructor
      · constructor
        · intro h
          simp [register, hf, create_session] at h
        · intro ⟨u, hu, he⟩
          rw [List.find?_eq_none] at hf
          exact absurd (by simpa using he) (hf u hu)
      · intro _
        simp [register, hf, create_session]
  | some u =>
      have hmem := List.mem_of_find?_eq_some hf
      have hemail : u.email = p.email := by simpa using List.find?_some hf
      constructor
      · constructor
        · intro _
          exact ⟨u, hmem, hemail⟩
        · intro _
          simp [register, hf]
      · intro hall
        exact absurd hemail (hall u hmem)

/-- Witness for C3: registering against the empty store inserts the user
and the session and answers the session payload; registering the same email
again fails with the conflict error. -/
theorem register_conflict_iff_witness :
    register St.init 2 42 ⟨"Ana", "ana@x.com", "pw", "user", none, none⟩ =
      (.ok ⟨42, some 0, "Ana", "user"⟩,
        ⟨[⟨0, "Ana", "ana@x.com", hash_password "pw", "user", none, none, 2, 2⟩],
          [], [], [⟨1, some 0, 42, 2, 2 + 604800⟩], [], 2⟩) ∧
    ((register
        (register St.init 2 42 ⟨"Ana", "ana@x.com", "pw", "user", none, none⟩).2
        3 43 ⟨"Ana2", "ana@x.com", "pw2", "user", none, none⟩).1 =
      .error ⟨400, "Email already registered"⟩ ↔
      ∃ u ∈ (register St.init 2 42 ⟨"Ana", "ana@x.com", "pw", "user", none, none⟩).2.users,
        u.email = "ana@x.com") :=
  ⟨(register_conflict_iff St.init 2 42 ⟨"Ana", "ana@x.com", "pw", "user", none, none⟩).2
      (by intro u hu; simp [St.init] at hu),
    (register_conflict_iff _ 3 43 ⟨"Ana2", "ana@x.com", "pw2", "user", none, none⟩).1⟩

/-- C4: `login` fails with the same 401 error both when the email is
unknown and when the stored hash differs from the hash of the supplied
password, so the two failure cases are indistinguishable to the caller. -/
theorem login_auth_error_indistinguishable (s : St) (now token : Nat) (p : LoginRequest) :
    (s.users.find? (fun u => u.email == p.email) = none →
      login s now token p = (.error ⟨401, "Invalid credentials"⟩, s)) ∧
    (∀ u, s.users.find? (fun u => u.email == p.email) = some u →
      u.password_hash ≠ hash_password p.password →
      login s now token p = (.error ⟨401, "Invalid credentials"⟩, s)) := by
  constructor
  · intro h
    simp [login, h]
  · intro u hu hne
    simp [login, hu, hne]

/-- A fixed store holding one registered regular user, used to instantiate
theorems. -/
def exUserSt : St :=
  ⟨[⟨0, "Ana", "ana@x.com", hash_password "pw", "user", none, none, 0, 0⟩],
    [], [], [], [], 1⟩

/-- Witness for C4: an unknown email and a wrong password produce the
identical 401 response. -/
theorem login_auth_error_indistinguishable_witness :
    login exUserSt 1 50 ⟨"bob@x.com", "pw"⟩ = (.error ⟨401, "Invalid credentials"⟩, exUserSt) ∧
    login exUserSt 1 50 ⟨"ana@x.com", "wrong"⟩ = (.error ⟨401, "Invalid credentials"⟩, exUserSt) :=
  ⟨(login_auth_error_indistinguishable exUserSt 1 50 ⟨"bob@x.com", "pw"⟩).1 rfl,
    (login_auth_error_indistinguishable exUserSt 1 50 ⟨"ana@x.com", "wrong"⟩).2
      ⟨0, "Ana", "ana@x.com", hash_password "pw", "user", none, none, 0, 0⟩ rfl
      (by simp [hash_password])⟩

/-- A fixed store holding one astrologer, used to instantiate theorems. -/
def exAstroSt : St :=
  ⟨[⟨2, "Star", "star@x.com", hash_password "p", "astrologer", none, none, 0, 0⟩],
    [], [], [], [], 3⟩

/-- Counterexample to C5 as stated: over the empty store, with a malformed
astrologer id, no user with that id and role astrologer exists, yet
`create_chat` fails with the 400 validation error and not with the 404
`NotFoundError` the claim requires. -/
theorem create_chat_malformed_id_counterexample :
    St.init.users = [] ∧
    (create_chat St.init 0 ⟨none, 0⟩).1 = .error ⟨400, "Invalid id format"⟩ ∧
    (create_chat St.init 0 ⟨none, 0⟩).1 ≠ .error ⟨404, "Astrologer not found"⟩ := by
  refine ⟨rfl, rfl, ?_⟩
  intro h
  simp [create_chat, oid, St.init] at h

/-- C5 (amended): for a well-formed astrologer id, `create_chat` fails with
`NotFoundError` exactly when no user with that id and role astrologer
exists, and on success stores a chat with the given `min_fee`, status
`active` and `user_id` unset, answering the fresh chat id; a malformed
astrologer id fails with the 400 validation error instead. -/
theorem create_chat_checks (s : St) (now : Nat) (p : CreateChatRequest) :
    (p.astrologer_id = none →
      create_chat s now p = (.error ⟨400, "Invalid id format"⟩, s)) ∧
    (∀ aid, p.astrologer_id = some aid →
      ((∀ u ∈ s.users, ¬(u._id = aid ∧ u.role = "astrologer")) →
        create_chat s now p = (.error ⟨404, "Astrologer not found"⟩, s)) ∧
      ((∃ u ∈ s.users, u._id = aid ∧ u.role = "astrologer") →
        create_chat s now p =
          (.ok ⟨some s.nextId⟩,
            ⟨s.users, s.chats ++ [⟨s.nextId, none, aid, "active", p.min_fee, now, now⟩],
              s.messages, s.sessions, s.calls, s.nextId + 1⟩))) := by
  constructor
  · intro h
    simp [create_chat, h, oid]
  · intro aid haid
    constructor
    · intro hnone
      have hf : s.users.find? (fun u => u._id == aid && u.role == "astrologer") = none := by
        rw [List.find?_eq_none]
        intro u hu
        simpa using hnone u hu
      simp [create_chat, haid, oid, hf]
    · intro hex
      have hf : (s.users.find? (fun u => u._id == aid && u.role == "astrologer")).isSome := by
        rw [List.find?_isSome]
        obtain ⟨u, hu, h1, h2⟩ := hex
        exact ⟨u, hu, by simp [h1, h2]⟩
      obtain ⟨u, hf⟩ := Option.isSome_iff_exists.mp hf
      simp [create_chat, haid, oid, hf]

/-- Witness for C5 (amended): the malformed, missing and existing cases at
concrete inputs. -/
theorem create_chat_checks_witness :
    create_chat St.init 0 ⟨none, 0⟩ = (.error ⟨400, "Invalid id format"⟩, St.init) ∧
    create_chat St.init 0 ⟨some 9, 0⟩ = (.error ⟨404, "Astrologer not found"⟩, St.init) ∧
    create_chat exAstroSt 5 ⟨some 2, 1⟩ =
      (.ok ⟨some 3⟩,
        ⟨exAstroSt.users, [⟨3, none, 2, "active", 1, 5, 5⟩], [], [], [], 4⟩) :=
  ⟨(create_chat_checks St.init 0 ⟨none, 0⟩).1 rfl,
    ((create_chat_checks St.init 0 ⟨some 9, 0⟩).2 9 rfl).1
      (by intro u hu; simp [St.init] at hu),
    ((create_chat_checks exAstroSt 5 ⟨some 2, 1⟩).2 2 rfl).2
      ⟨⟨2, "Star", "star@x.com", hash_password "p", "astrologer", none, none, 0, 0⟩,
        by simp [exAstroSt], rfl, rfl⟩⟩

/-- Rewrite the stored expiry of every session, standing for an arbitrary
relation between the stored `expires_at` values and the current time. -/
def set_all_expiry (s : St) (e : Nat) : St :=
  { s with sessions := s.sessions.map (fun d => { d with expires_at := e }) }

/-- C6: `resolveToken` never checks the stored `expires_at`: after
`issueSession` stores a fresh token for an existing user, resolving the
token answers the owning user, and it still does so whatever value the
stored expiry fields are given afterwards, i.e. however much time has
passed. -/
theorem resolve_token_ignores_expiry (s : St) (now token uid : Nat) (u : UserDoc)
    (huser : s.users.find? (fun x => x._id == uid) = some u)
    (hfresh : ∀ d ∈ s.sessions, d.token ≠ token) :
    get_user_by_token (create_session s now token (some uid)) token = .ok (some u) ∧
    ∀ e, get_user_by_token (set_all_expiry (create_session s now token (some uid)) e) token
        = .ok (some u) := by
  have hleft : s.sessions.find? (fun d => d.token == token) = none := by
    rw [List.find?_eq_none]
    intro d hd
    simpa using hfresh d hd
  constructor
  · simp [get_user_by_token, create_session, List.find?_append, hleft, oid, huser, Except.map]
  · intro e
    have hmap : (s.sessions.map (fun d => ({ d with expires_at := e } : SessionDoc))).find?
        (fun d => d.token == token) = none := by
      rw [List.find?_eq_none]
      intro d hd
      obtain ⟨d0, hd0, rfl⟩ := List.mem_map.mp hd
      simpa using hfresh d0 hd0
    simp [get_user_by_token, set_all_expiry, create_session, List.find?_append,
      hmap, oid, huser, Except.map]

/-- Witness for C6: a token issued at time 0 with a 7-day stored expiry
still resolves to its user when every stored expiry is rewritten to a value
far in the past relative to any later clock. -/
theorem resolve_token_ignores_expiry_witness :
    get_user_by_token (set_all_expiry (create_session exUserSt 0 42 (some 0)) 1) 42 =
      .ok (some ⟨0, "Ana", "ana@x.com", hash_password "pw", "user", none, none, 0, 0⟩) :=
  (resolve_token_ignores_expiry exUserSt 0 42 0
      ⟨0, "Ana", "ana@x.com", hash_password "pw", "user", none, none, 0, 0⟩ rfl
      (by intro d hd; simp [exUserSt] at hd)).2 1

/-- C2: every API call that answers an error leaves the document store
exactly as it was before the call. -/
theorem error_leaves_state_unchanged (op : Op) (s : St) (e : Err)
    (h : (runOp op s).1 = .error e) : (runOp op s).2 = s := by
  cases op with
  | register now token p =>
      cases hf : s.users.find? (fun u => u.email == p.email) with
      | some u => simp [runOp, register, hf]
      | none => simp [runOp, register, hf, Except.map] at h
  | login now token p =>
      cases hf : s.users.find? (fun u => u.email == p.email) with
      | none => simp [runOp, login, hf]
      | some u =>
          by_cases hp : u.password_hash = hash_password p.password
          · simp [runOp, login, hf, hp, Except.map] at h
          · simp [runOp, login, hf, hp]
  | create_chat now p =>
      cases ho : oid p.astrologer_id with
      | error e2 => simp [runOp, create_chat, ho]
      | ok aid =>
          cases hf : s.users.find? (fun u => u._id == aid && u.role == "astrologer") with
          | none => simp [runOp, create_chat, ho, hf]
          | some u => simp [runOp, create_chat, ho, hf, Except.map] at h
  | send_message now p =>
      cases hc : oid p.chat_id with
      | error e2 => simp [runOp, send_message, hc]
      | ok cid =>
          cases hf : s.chats.find? (fun c => c._id == cid) with
          | none => simp [runOp, send_message, hc, hf]
          | some chat =>
              cases hu : chat.user_id with
              | some u =>
                  cases hsd : oid p.sender_id with
                  | error e2 => simp [runOp, send_message, hc, hf, hu, hsd]
                  | ok sid => simp [runOp, send_message, hc, hf, hu, hsd, Except.map] at h
              | none =>
                  cases hsd : oid p.sender_id with
                  | error e2 => simp [runOp, send_message, hc, hf, hu, hsd, Except.map]
                  | ok sid => simp [runOp, send_message, hc, hf, hu, hsd, Except.map] at h
  | get_messages chat_id =>
      cases hc : oid chat_id with
      | error e2 => simp [runOp, get_messages, hc]
      | ok cid => simp [runOp, get_messages, hc, Except.map] at h
  | init_call now p =>
      cases hc : oid p.callee_id with
      | error e2 => simp [runOp, init_call, hc]
      | ok callee =>
          cases hch : p.chat_id with
          | none => simp [runOp, init_call, hc, hch, Except.map] at h
          | some raw =>
              cases ho2 : oid raw with
              | error e2 => simp [runOp, init_call, hc, hch, ho2, Except.map]
              | ok cv => simp [runOp, init_call, hc, hch, ho2, Except.map] at h
  | update_call_status now call_id status =>
      cases hc : oid call_id with
      | error e2 => simp [runOp, update_call_status, hc]
      | ok cid => simp [runOp, update_call_status, hc, Except.map] at h

/-- Witness for C2: a call failing on a malformed id leaves the empty store
untouched. -/
theorem error_leaves_state_unchanged_witness :
    (runOp (.get_messages none) St.init).1 = .error ⟨400, "Invalid id format"⟩ ∧
    (runOp (.get_messages none) St.init).2 = St.init :=
  ⟨rfl, error_leaves_state_unchanged (.get_messages none) St.init
    ⟨400, "Invalid id format"⟩ rfl⟩

/-- Every stored message references a stored chat by `_id`. -/
def MsgChatLinked (s : St) : Prop :=
  ∀ m ∈ s.messages, ∃ c ∈ s.chats, c._id = m.chat_id

/-- Existence of a chat id survives the chat `update_one`. -/
theorem exists_id_set_chat_user (l : List ChatDoc) (cid sid now x : Nat)
    (h : ∃ c ∈ l, c._id = x) : ∃ c ∈ set_chat_user l cid sid now, c._id = x := by
  obtain ⟨c, hc, rfl⟩ := h
  have hmem : c._id ∈ (set_chat_user l cid sid now).map (fun c => c._id) := by
    rw [set_chat_user_map_id]
    exact List.mem_map_of_mem _ hc
  obtain ⟨c2, hc2, he⟩ := List.mem_map.mp hmem
  exact ⟨c2, hc2, he⟩

/-- Each API call preserves the message-to-chat reference invariant. -/
theorem stepTo_preserves_linked (s s2 : St) (hs : MsgChatLinked s) (h : StepTo s s2) :
    MsgChatLinked s2 := by
  obtain ⟨op, rfl⟩ := h
  cases op with
  | register now token p =>
      cases hf : s.users.find? (fun u => u.email == p.email) with
      | some u =>
          simp only [runOp, register, hf]
          exact hs
      | none =>
          simp only [runOp, register, hf, create_session]
          exact fun m hm => hs m hm
  | login now token p =>
      cases hf : s.users.find? (fun u => u.email == p.email) with
      | none =>
          simp only [runOp, login, hf]
          exact hs
      | some u =>
          by_cases hp : u.password_hash = hash_password p.password
          · simp only [runOp, login, hf, hp, ne_eq, not_true_eq_false, if_false,
              create_session]
            exact fun m hm => hs m hm
          · simp only [runOp, login, hf]
            rw [if_pos hp]
            exact hs
  | create_chat now p =>
      cases ho : oid p.astrologer_id with
      | error e2 =>
          simp only [runOp, create_chat, ho]
          exact hs
      | ok aid =>
          cases hf : s.users.find? (fun u => u._id == aid && u.role == "astrologer") with
          | none =>
              simp only [runOp, create_chat, ho, hf]
              exact hs
          | some u =>
              simp only [runOp, create_chat, ho, hf]
              intro m hm
              obtain ⟨c, hc, he⟩ := hs m hm
              exact ⟨c, List.mem_append_left _ hc, he⟩
  | send_message now p =>
      cases hc : oid p.chat_id with
      | error e2 =>
          simp only [runOp, send_message, hc]
          exact hs
      | ok cid =>
          cases hf : s.chats.find? (fun c => c._id == cid) with
          | none =>
              simp only [runOp, send_message, hc, hf]
              exact hs
          | some chat =>
              have hchatmem := List.mem_of_find?_eq_some hf
              cases hu : chat.user_id with
              | some u =>
                  cases hsd : oid p.sender_id with
                  | error e2 =>
                      simp only [runOp, send_message, hc, hf, hu, hsd]
                      exact hs
                  | ok sid =>
                      simp only [runOp, send_message, hc, hf, hu, hsd]
                      intro m hm
                      rcases List.mem_append.mp hm with hm1 | hm2
                      · exact hs m hm1
                      · rcases List.mem_singleton.mp hm2 with rfl
                        exact ⟨chat, hchatmem, rfl⟩
              | none =>
                  cases hsd : oid p.sender_id with
                  | error e2 =>
                      simp only [runOp, send_message, hc, hf, hu, hsd, Except.map]
                      exact hs
                  | ok sid =>
                      simp only [runOp, send_message, hc, hf, hu, hsd, Except.map]
                      intro m hm
                      rcases List.mem_append.mp hm with hm1 | hm2
                      · exact exists_id_set_chat_user _ _ _ _ _ (hs m hm1)
                      · rcases List.mem_singleton.mp hm2 with rfl
                        exact exists_id_set_chat_user _ _ _ _ _ ⟨chat, hchatmem, rfl⟩
  | get_messages chat_id =>
      cases hc : oid chat_id with
      | error e2 =>
          simp only [runOp, get_messages, hc]
          exact hs
      | ok cid =>
          simp only [runOp, get_messages, hc]
          exact hs
  | init_call now p =>
      cases hc : oid p.callee_id with
      | error e2 =>
          simp only [runOp, init_call, hc]
          exact hs
      | ok callee =>
          cases hch : p.chat_id with
          | none =>
              simp only [runOp, init_call, hc, hch]
              exact fun m hm => hs m hm
          | some raw =>
              cases ho2 : oid raw with
              | error e2 =>
                  simp only [runOp, init_call, hc, hch, ho2, Except.map]
                  exact hs
              | ok cv =>
                  simp only [runOp, init_call, hc, hch, ho2, Except.map]
                  exact fun m hm => hs m hm
  | update_call_status now call_id status =>
      cases hc : oid call_id with
      | error e2 =>
          simp only [runOp, update_call_status, hc]
          exact hs
      | ok cid =>
          simp only [runOp, update_call_status, hc]
          exact fun m hm => hs m hm

/-- Every reachable store satisfies the message-to-chat reference
invariant. -/
theorem reachable_linked (s : St) (h : Reachable s) : MsgChatLinked s := by
  induction h with
  | refl =>
      intro m hm
      simp [St.init] at hm
  | tail _ hstep ih => exact stepTo_preserves_linked _ _ ih hstep

/-- C8: `listMessages` performs no existence check on the chat id: over any
reachable store, a well-formed chat id matching no stored chat yields the
empty list with the store unchanged, while `sendMessage` on the same id
fails with the 404 `NotFoundError`. -/
theorem get_messages_unknown_chat_empty (s : St) (cid : Nat)
    (hreach : Reachable s) (hno : ∀ c ∈ s.chats, c._id ≠ cid) :
    get_messages s (some cid) = (.ok [], s) ∧
    ∀ now p, p.chat_id = some cid →
      send_message s now p = (.error ⟨404, "Chat not found"⟩, s) := by
  have hlink := reachable_linked s hreach
  have hmsg : s.messages.filter (fun r => r.chat_id == cid) = [] := by
    rw [List.filter_eq_nil_iff]
    intro m hm
    simp only [beq_iff_eq]
    intro heq
    obtain ⟨c, hc, hid⟩ := hlink m hm
    exact hno c hc (hid.trans heq)
  refine ⟨?_, ?_⟩
  · simp [get_messages, oid, hmsg, List.mergeSort]
  · intro now p hp
    have hfind : s.chats.find? (fun c => c._id == cid) = none := by
      rw [List.find?_eq_none]
      intro c hc
      simpa using hno c hc
    simp [send_message, hp, oid, hfind]

/-- Witness for C8: over the (reachable) empty store, chat id 0 yields the
empty message list while sending to it is a 404. -/
theorem get_messages_unknown_chat_empty_witness :
    get_messages St.init (some 0) = (.ok [], St.init) ∧
    send_message St.init 1 ⟨some 0, some 1, "hi"⟩ = (.error ⟨404, "Chat not found"⟩, St.init) :=
  ⟨(get_messages_unknown_chat_empty St.init 0 Relation.ReflTransGen.refl
      (by intro c hc; simp [St.init] at hc)).1,
    (get_messages_unknown_chat_empty St.init 0 Relation.ReflTransGen.refl
      (by intro c hc; simp [St.init] at hc)).2 1 ⟨some 0, some 1, "hi"⟩ rfl⟩
